import Mathlib

/-!
Shallow embedding of `performance-test.js` (repository `kamikakushi-hp`),
a one-shot静的 performance analysis script.  The script's analyzers are
regular-expression counters over in-memory text, a per-category size
classifier, an asset aggregator, a rule-based recommendation builder, a
priority-weighted scorer and a report assembler.  Below, each JavaScript
function is translated into an executable Lean definition:

* strings are `String` / `List Char`;
* JavaScript numbers are modelled as exact rationals `ℚ` (the sizes the
  script manipulates are small, so the rounding behaviour under scrutiny
  is the explicit `Math.round(x*100)/100` calls, not binary floating
  point);
* `Math.round` is `jsRound`, the executable floor of `x + 1/2`, which
  rounds halves toward `+∞` exactly as `Math.round` does (and provably
  agrees with Mathlib's `round`);
* each global regex scan `text.match(/pat/g)` is modelled by a scanner
  that at every position tries to match `pat` and, on success, counts the
  match and resumes after it — the leftmost, non-overlapping semantics of
  a JavaScript global match.
-/

/-- Whitespace class of the JavaScript regex `\s` (ASCII part; the
inputs analysed in this development contain only ASCII whitespace). -/
def isJsWs (c : Char) : Bool :=
  c = ' ' ∨ c = '\t' ∨ c = '\n' ∨ c = '\r' ∨ c = '\x0b' ∨ c = '\x0c'

/-- Case-sensitive literal match: if `pat` is a prefix of `s`, return the
remainder of `s` after it. -/
def matchLit : List Char → List Char → Option (List Char)
  | [], s => some s
  | _ :: _, [] => none
  | p :: ps, c :: cs => if c = p then matchLit ps cs else none

/-- Case-insensitive literal match (the `/i` regex flag), ASCII folding. -/
def matchLitCI : List Char → List Char → Option (List Char)
  | [], s => some s
  | _ :: _, [] => none
  | p :: ps, c :: cs => if c.toLower = p.toLower then matchLitCI ps cs else none

/-- Model of a greedy `[^t]*t` regex tail: skip characters distinct from
`t`, then consume the first `t`; `none` when `t` never occurs. -/
def consumeUntil (t : Char) : List Char → Option (List Char)
  | [] => none
  | c :: cs => if c = t then some cs else consumeUntil t cs

/-- Generic counter for a JavaScript global regex scan: at each position
try `step` (a matcher returning the rest of the text after the match);
on success count one match and resume after it, otherwise advance one
character.  Every matcher used below consumes at least one character, so
`fuel = length of the text` (as supplied by each wrapper) never runs out
before the scan is complete. -/
def countMatches (step : List Char → Option (List Char)) : Nat → List Char → Nat
  | 0, _ => 0
  | _, [] => 0
  | fuel + 1, c :: cs =>
    match step (c :: cs) with
    | some rest => 1 + countMatches step fuel rest
    | none => countMatches step fuel cs

/-- Count of a literal pattern inside a character list
(`text.match(/lit/g).length` for a literal `lit`). -/
def countLitIn (pat : String) (s : List Char) : Nat :=
  countMatches (matchLit pat.data) s.length s

/-- `path.extname`: the substring from the last `.` of the name, lower
bounded by Node's special cases — no dot, a leading dot (hidden file), or
the name `".."` give the empty string.  The script only applies it to
plain directory-entry names, so no separator handling is modelled. -/
def extname (s : String) : String :=
  let cs := s.data
  let dots := (List.range cs.length).filter fun i => cs.getD i ' ' = '.'
  match dots.getLast? with
  | none => ""
  | some 0 => ""
  | some i => if s = ".." then "" else ⟨cs.drop i⟩

/-- `Math.round`: round to the nearest integer, halves toward `+∞` —
that is, `⌊x + 1/2⌋`, written with the executable `Rat.floor`. -/
def jsRound (x : ℚ) : ℤ := (x + 1 / 2).floor

/-- `jsRound` agrees with Mathlib's `round`, which also sends halves
toward `+∞`. -/
theorem jsRound_eq_round (x : ℚ) : jsRound x = round x := by
  rw [jsRound, round_eq, Rat.floor_def, Rat.floor_def']

/-- `Math.round(x * 100) / 100`, the 2-decimal rounding the script applies
to every kilobyte figure. -/
def round2 (x : ℚ) : ℚ := (jsRound (x * 100) : ℤ) / 100

/-- `round2` written with Mathlib's `round`, for `norm_num` computations. -/
theorem round2_eq (x : ℚ) : round2 x = (round (x * 100) : ℤ) / 100 := by
  rw [round2, jsRound_eq_round]

example : round2 (5 / 1024) = 0 := by norm_num [round2_eq, round_eq]
example : round2 (10 / 1024) = 1 / 100 := by norm_num [round2_eq, round_eq]
example : extname "a.PNG" = ".PNG" := by decide
example : extname ".hidden" = "" := by decide
example : countLitIn "!important" "!important !important".data = 2 := by decide

/-! ## Size classifier (`evaluateFileSize`, `evaluateAssetSize`)

The script's verdicts are the literal strings it stores into the
`status` fields and prints. -/

/-- The verdict string `'✅ 良好'` (good). -/
def goodStatus : String := "✅ 良好"

/-- The verdict string `'⚠️ 注意'` (warning). -/
def warnStatus : String := "⚠️ 注意"

/-- The verdict string `'❌ 改善必要'` (needs improvement). -/
def badStatus : String := "❌ 改善必要"

/-- The `limits` table of `evaluateFileSize`, with the `|| 50` default
(every table value is nonzero, so JavaScript's `||` fallback only fires
for names outside the table). -/
def fileLimits (filename : String) : ℚ :=
  if filename = "index.html" then 100
  else if filename = "styles.css" then 50
  else if filename = "integration-test.html" then 150
  else if filename = "test-responsive.html" then 30
  else 50

/-- `evaluateFileSize(filename, sizeKB)`: three-way threshold test with
the fixed `1.5×` warning band. -/
def evaluateFileSize (filename : String) (sizeKB : ℚ) : String :=
  let limit := fileLimits filename
  if sizeKB ≤ limit then goodStatus
  else if sizeKB ≤ limit * 1.5 then warnStatus
  else badStatus

/-- The per-extension `limits` table of `evaluateAssetSize`, with the
`|| 500` default (all table values nonzero). -/
def assetLimits (ext : String) : ℚ :=
  if ext = ".gif" then 2000
  else if ext = ".png" then 500
  else if ext = ".jpg" then 300
  else if ext = ".jpeg" then 300
  else if ext = ".webp" then 200
  else 500

/-- `.toLowerCase()` (ASCII folding, which covers the extensions the
script compares against). -/
def toLowerStr (s : String) : String := ⟨s.data.map Char.toLower⟩

/-- The threshold `evaluateAssetSize` uses for a file name: table lookup
on the lower-cased extension. -/
def assetLimitOf (filename : String) : ℚ :=
  assetLimits (toLowerStr (extname filename))

/-- `evaluateAssetSize(filename, sizeKB)`: same three-way rule as
`evaluateFileSize` over per-extension thresholds. -/
def evaluateAssetSize (filename : String) (sizeKB : ℚ) : String :=
  let limit := assetLimitOf filename
  if sizeKB ≤ limit then goodStatus
  else if sizeKB ≤ limit * 1.5 then warnStatus
  else badStatus

/-! ## Recommendations -/

/-- One entry pushed onto `this.results.recommendations`: the script uses
plain strings for the `type` and `priority` fields. -/
structure Recommendation where
  type : String
  priority : String
  message : String
deriving DecidableEq

/-! ## Stylesheet analyzer (`analyzeCSSPerformance`) -/

/-- The metrics record built by `analyzeCSSPerformance`. -/
structure CSSAnalysis where
  totalLines : Nat
  totalRules : Nat
  mediaQueries : Nat
  keyframes : Nat
  willChangeUsage : Nat
  transformUsage : Nat
  animationUsage : Nat
  transitionUsage : Nat
  complexSelectors : Nat
  importantUsage : Nat
deriving DecidableEq

/-- Matcher for `\{[^}]*\}` at the current position: a `{`, a run of
non-`}` characters, then the first `}`. -/
def stepRule : List Char → Option (List Char)
  | '{' :: cs => consumeUntil '}' cs
  | _ => none

/-- Matcher for `@media[^{]*\{` (resp. `@keyframes[^{]*\{`) at the
current position: the literal opener, then everything up to and
including the first `{`. -/
def stepAtRule (opener : String) (s : List Char) : Option (List Char) :=
  (matchLit opener.data s).bind (consumeUntil '{')

/-- Tail of a `prop\s*:` property regex after the literal property name:
optional whitespace, then a colon (the colon is not whitespace, so
greedy `\s*` backtracking adds nothing). -/
def skipWsColon : List Char → Option (List Char)
  | [] => none
  | c :: cs => if c = ':' then some cs else if isJsWs c then skipWsColon cs else none

/-- Matcher for `prop\s*:` at the current position. -/
def stepProp (prop : String) (s : List Char) : Option (List Char) :=
  (matchLit prop.data s).bind skipWsColon

/-- Matcher for the complex-selector heuristic
`[^{]*\s+[^{]*\s+[^{]*\s+[^{]*\{` at the current position.  None of the
character classes accepts `{`, so a match must end at the first `{`
after the current position, and it exists exactly when the text before
that `{` contains at least three whitespace characters (one per `\s+`,
with the greedy `[^{]*` runs absorbing the rest). -/
def stepComplex (s : List Char) : Option (List Char) :=
  go 0 s
where
  go : Nat → List Char → Option (List Char)
    | _, [] => none
    | ws, '{' :: cs => if 3 ≤ ws then some cs else none
    | ws, c :: cs => go (if isJsWs c then ws + 1 else ws) cs

/-- `analyzeCSSPerformance`: the ten independent regex scans over the
stylesheet text.  `split('\n').length` counts newline characters plus
one. -/
def analyzeCSSPerformance (cssContent : String) : CSSAnalysis :=
  let cs := cssContent.data
  { totalLines := cs.count '\n' + 1
    totalRules := countMatches stepRule cs.length cs
    mediaQueries := countMatches (stepAtRule "@media") cs.length cs
    keyframes := countMatches (stepAtRule "@keyframes") cs.length cs
    willChangeUsage := countMatches (stepProp "will-change") cs.length cs
    transformUsage := countMatches (stepProp "transform") cs.length cs
    animationUsage := countMatches (stepProp "animation") cs.length cs
    transitionUsage := countMatches (stepProp "transition") cs.length cs
    complexSelectors := countMatches stepComplex cs.length cs
    importantUsage := countLitIn "!important" cs }

/-- `evaluateCSSPerformance`: the four stylesheet recommendation rules,
appended in source order. -/
def evaluateCSSPerformance (analysis : CSSAnalysis) : List Recommendation :=
  (if analysis.willChangeUsage < analysis.animationUsage then
    [⟨"CSS", "high", "アニメーション要素にwill-changeプロパティの追加を推奨"⟩] else [])
  ++ (if analysis.complexSelectors > 10 then
    [⟨"CSS", "medium", "複雑なセレクタが多数検出されました。シンプルなセレクタの使用を推奨"⟩] else [])
  ++ (if analysis.importantUsage > 5 then
    [⟨"CSS", "medium", "!importantの使用が多数検出されました。CSS設計の見直しを推奨"⟩] else [])
  ++ (if analysis.totalRules > 500 then
    [⟨"CSS", "low", "CSSルール数が多いです。未使用CSSの削除を検討してください"⟩] else [])

/-! ## Embedded-script analyzer (`analyzeJSPerformance`) -/

/-- Match `<script[^>]*>[\s\S]*?<\/script>` (flags `gi`) at the current
position, returning the text after the whole match.  The lazy body makes
the closing `</script>` the earliest one after the opening tag, which
`findCloseFrom` locates. -/
def matchScriptOpenClose (s : List Char) : Option (List Char) :=
  match matchLitCI "<script".data s with
  | none => none
  | some r1 =>
    match consumeUntil '>' r1 with
    | none => none
    | some r2 => findCloseFrom r2
where
  /-- Scan for the earliest case-insensitive `</script>`, returning the
  text after it. -/
  findCloseFrom : List Char → Option (List Char)
    | [] => none
    | c :: cs =>
      match matchLitCI "</script>".data (c :: cs) with
      | some rest => some rest
      | none => findCloseFrom cs

/-- The global scan of `htmlContent.match(/<script[^>]*>([\s\S]*?)<\/script>/gi)`,
returning the list of full matches (tags included) in document order.
Each match consumes at least one character, so `fuel = length` (supplied
by `extractScripts`) suffices. -/
def extractScriptsAux : Nat → List Char → List (List Char)
  | 0, _ => []
  | _, [] => []
  | fuel + 1, c :: cs =>
    match matchScriptOpenClose (c :: cs) with
    | some rest =>
      (c :: cs).take ((c :: cs).length - rest.length) :: extractScriptsAux fuel rest
    | none => extractScriptsAux fuel cs

/-- All full `<script ...>...</script>` matches of the markup text. -/
def extractScripts (s : List Char) : List (List Char) := extractScriptsAux s.length s

/-- Matcher for `<\/?script[^>]*>` at the current position (an opening or
closing script tag, case-insensitive). -/
def stepScriptTag (s : List Char) : Option (List Char) :=
  match matchLitCI "<script".data s with
  | some r => consumeUntil '>' r
  | none =>
    match matchLitCI "</script".data s with
    | some r => consumeUntil '>' r
    | none => none

/-- `script.replace(/<\/?script[^>]*>/gi, '')`: delete every script tag
from a matched block.  Deletions only shorten the text, so
`fuel = length` (supplied by `stripScriptTags`) suffices. -/
def stripScriptTagsAux : Nat → List Char → List Char
  | 0, s => s
  | _, [] => []
  | fuel + 1, c :: cs =>
    match stepScriptTag (c :: cs) with
    | some rest => stripScriptTagsAux fuel rest
    | none => c :: stripScriptTagsAux fuel cs

/-- Strip the opening/closing tags from a full script-block match. -/
def stripScriptTags (s : List Char) : List Char := stripScriptTagsAux s.length s

/-- Matcher for the alternation `querySelector|getElementById|getElementsBy`
at the current position, tried in the regex's alternative order. -/
def stepDomQuery (s : List Char) : Option (List Char) :=
  match matchLit "querySelector".data s with
  | some rest => some rest
  | none =>
    match matchLit "getElementById".data s with
    | some rest => some rest
    | none => matchLit "getElementsBy".data s

/-- The metrics record built by `analyzeJSPerformance`. -/
structure JSAnalysis where
  totalLines : Nat
  eventListeners : Nat
  setTimeoutUsage : Nat
  setIntervalUsage : Nat
  animationFrameUsage : Nat
  domQueries : Nat
  scriptTags : Nat
deriving DecidableEq

/-- `analyzeJSPerformance`: extract every embedded script block, strip
its tags, and accumulate the per-block pattern counts. -/
def analyzeJSPerformance (htmlContent : String) : JSAnalysis :=
  let contents := (extractScripts htmlContent.data).map stripScriptTags
  { totalLines := (contents.map fun c => c.count '\n' + 1).sum
    eventListeners := (contents.map (countLitIn "addEventListener")).sum
    setTimeoutUsage := (contents.map (countLitIn "setTimeout")).sum
    setIntervalUsage := (contents.map (countLitIn "setInterval")).sum
    animationFrameUsage := (contents.map (countLitIn "requestAnimationFrame")).sum
    domQueries := (contents.map fun c => countMatches stepDomQuery c.length c).sum
    scriptTags := (extractScripts htmlContent.data).length }

/-- `evaluateJSPerformance`: the four script recommendation rules,
appended in source order. -/
def evaluateJSPerformance (analysis : JSAnalysis) : List Recommendation :=
  (if analysis.animationFrameUsage = 0 ∧ analysis.setTimeoutUsage > 0 then
    [⟨"JavaScript", "high", "アニメーションにはsetTimeoutではなくrequestAnimationFrameの使用を推奨"⟩] else [])
  ++ (if analysis.setIntervalUsage > 0 then
    [⟨"JavaScript", "medium", "setIntervalの使用が検出されました。パフォーマンスへの影響を確認してください"⟩] else [])
  ++ (if analysis.domQueries > 20 then
    [⟨"JavaScript", "medium", "DOM クエリが多数検出されました。要素の再利用を検討してください"⟩] else [])
  ++ (if analysis.totalLines > 1000 then
    [⟨"JavaScript", "low", "JavaScript コードが大きいです。外部ファイルへの分離を検討してください"⟩] else [])

/-! ## Asset analyzer (`analyzeAssets`, `evaluateAssetPerformance`) -/

/-- One value of the `assetDetails` object. -/
structure AssetDetail where
  size : ℚ
  type : String
  status : String
deriving DecidableEq

/-- The `this.results.assetAnalysis` record. -/
structure AssetAnalysis where
  totalAssets : Nat
  totalSize : ℚ
  details : List (String × AssetDetail)
deriving DecidableEq

/-- `analyzeAssets`, over a directory listing paired with each entry's
byte size (`fs.readdirSync` + `fs.statSync`).  Each per-asset size is
rounded to 2 decimals on conversion to KB, the rounded sizes are
accumulated, and the accumulated total is rounded to 2 decimals again.
The `assetDetails` object is modelled as an insertion-ordered
association list; directory listings never repeat a name. -/
def analyzeAssets (assets : List (String × ℚ)) : AssetAnalysis :=
  let details := assets.map fun p =>
    let sizeKB := round2 (p.2 / 1024)
    (p.1, AssetDetail.mk sizeKB (toLowerStr (extname p.1)) (evaluateAssetSize p.1 sizeKB))
  let totalSize := assets.foldl (fun acc p => acc + round2 (p.2 / 1024)) 0
  { totalAssets := assets.length
    totalSize := round2 totalSize
    details := details }

/-- The Asset/low WebP recommendation pushed by `evaluateAssetPerformance`. -/
def webpRec : Recommendation :=
  ⟨"Assets", "low", "WebP形式の画像使用を検討してください（ファイルサイズ削減）"⟩

/-- `evaluateAssetPerformance`: total-size rule, one rule per oversized
asset, then the WebP-adoption rule, appended in source order.  The
numeric part of the per-asset message is rendered from the exact
rational (JavaScript renders the same value in decimal). -/
def evaluateAssetPerformance (analysis : AssetAnalysis) : List Recommendation :=
  (if analysis.totalSize > 5000 then
    [⟨"Assets", "high", "アセットの総サイズが大きいです。画像の最適化を推奨"⟩] else [])
  ++ analysis.details.filterMap (fun p =>
      if p.2.status = badStatus then
        some ⟨"Assets", "medium", p.1 ++ " のサイズが大きいです (" ++ toString p.2.size ++ "KB)"⟩
      else none)
  ++ (if (¬ analysis.details.any fun p => toLowerStr (extname p.1) = ".webp")
        ∧ analysis.totalAssets > 0 then [webpRec] else [])

/-! ## Report (`generateReport`, `saveJSONReport`) -/

/-- The deduction `generateReport`'s `switch(rec.priority)` applies for
one recommendation; a priority outside the three cases deducts
nothing (the `switch` has no default). -/
def recDeduction (priority : String) : ℤ :=
  if priority = "high" then 15
  else if priority = "medium" then 10
  else if priority = "low" then 5
  else 0

/-- The score of `generateReport`: start at 100, deduct per
recommendation, then `Math.max(0, score)`. -/
def computeScore (recs : List Recommendation) : ℤ :=
  max 0 (recs.foldl (fun s r => s - recDeduction r.priority) 100)

/-- The qualitative band chosen by `generateReport`'s score `if` chain. -/
inductive Band
  | excellent
  | good
  | caution
  | needsWork
deriving DecidableEq

/-- `score >= 90` excellent, `score >= 70` good, `score >= 50` caution,
otherwise needs work. -/
def scoreBand (score : ℤ) : Band :=
  if score ≥ 90 then .excellent
  else if score ≥ 70 then .good
  else if score ≥ 50 then .caution
  else .needsWork

/-- The recommendation listing of `generateReport`: for each priority in
`['high', 'medium', 'low']`, the recommendations filtered to that
priority, each with its 1-based position within the group.  An entry is
`(priority, index, recommendation)`. -/
def groupedRecommendations (recs : List Recommendation) : List (String × Nat × Recommendation) :=
  (["high", "medium", "low"]).flatMap fun p =>
    ((recs.filter fun r => r.priority = p).enum).map fun e => (p, e.1 + 1, e.2)

/-- The `summary` object of `saveJSONReport`. -/
structure ReportSummary where
  totalFiles : Nat
  totalRecommendations : Nat
  highPriorityIssues : Nat
  mediumPriorityIssues : Nat
  lowPriorityIssues : Nat
deriving DecidableEq

/-- `saveJSONReport`'s summary: the recommendation count and the three
per-priority filter counts. -/
def mkSummary (totalFiles : Nat) (recs : List Recommendation) : ReportSummary :=
  { totalFiles := totalFiles
    totalRecommendations := recs.length
    highPriorityIssues := (recs.filter fun r => r.priority = "high").length
    mediumPriorityIssues := (recs.filter fun r => r.priority = "medium").length
    lowPriorityIssues := (recs.filter fun r => r.priority = "low").length }

/-- The full recommendation list of one run: the three evaluators push
onto `this.results.recommendations` in driver order (CSS, then
JavaScript, then assets; `analyzeFileSizes` pushes nothing). -/
def runRecommendations (css : CSSAnalysis) (js : JSAnalysis)
    (assets : List (String × ℚ)) : List Recommendation :=
  evaluateCSSPerformance css ++ evaluateJSPerformance js
    ++ evaluateAssetPerformance (analyzeAssets assets)

/-- Count of recommendations carrying a given priority, as an integer. -/
def countPriority (p : String) (recs : List Recommendation) : ℤ :=
  ((recs.filter fun r => r.priority = p).length : ℤ)

/-! ## Claim theorems -/

/-- Every file-size threshold in the table (and the default) is positive. -/
theorem fileLimits_pos (filename : String) : 0 < fileLimits filename := by
  unfold fileLimits
  split_ifs <;> norm_num

/-- Every asset-size threshold in the table (and the default) is positive. -/
theorem assetLimitOf_pos (filename : String) : 0 < assetLimitOf filename := by
  unfold assetLimitOf assetLimits
  split_ifs <;> norm_num

/-- C1: for every category and non-negative size, both classifiers return
the good verdict when `sizeKB ≤ threshold`, the warning verdict when
`threshold < sizeKB ≤ 1.5 × threshold`, and the needs-improvement verdict
when `sizeKB > 1.5 × threshold`; the boundaries `sizeKB = threshold`
(good) and `sizeKB = 1.5 × threshold` (warning) are instances of the
first two clauses. -/
theorem c1_size_classifier (filename : String) (sizeKB : ℚ) (_hnn : 0 ≤ sizeKB) :
    ((sizeKB ≤ fileLimits filename → evaluateFileSize filename sizeKB = goodStatus) ∧
      (fileLimits filename < sizeKB → sizeKB ≤ fileLimits filename * 1.5 →
        evaluateFileSize filename sizeKB = warnStatus) ∧
      (fileLimits filename * 1.5 < sizeKB → evaluateFileSize filename sizeKB = badStatus)) ∧
    ((sizeKB ≤ assetLimitOf filename → evaluateAssetSize filename sizeKB = goodStatus) ∧
      (assetLimitOf filename < sizeKB → sizeKB ≤ assetLimitOf filename * 1.5 →
        evaluateAssetSize filename sizeKB = warnStatus) ∧
      (assetLimitOf filename * 1.5 < sizeKB → evaluateAssetSize filename sizeKB = badStatus)) := by
  have hf := fileLimits_pos filename
  have ha := assetLimitOf_pos filename
  unfold evaluateFileSize evaluateAssetSize
  refine ⟨⟨fun h => ?_, fun h1 h2 => ?_, fun h => ?_⟩,
    fun h => ?_, fun h1 h2 => ?_, fun h => ?_⟩
  · rw [if_pos h]
  · rw [if_neg (not_le.mpr h1), if_pos h2]
  · rw [if_neg, if_neg (not_le.mpr h)]
    exact not_le.mpr (by nlinarith)
  · rw [if_pos h]
  · rw [if_neg (not_le.mpr h1), if_pos h2]
  · rw [if_neg, if_neg (not_le.mpr h)]
    exact not_le.mpr (by nlinarith)

/-- C1 witness: concrete threshold-boundary inputs. -/
theorem c1_size_classifier_witness :
    evaluateFileSize "index.html" 100 = goodStatus ∧
      evaluateAssetSize "photo.png" 500 = goodStatus :=
  ⟨((c1_size_classifier "index.html" 100 (by decide)).1).1 (by decide),
    ((c1_size_classifier "photo.png" 500 (by decide)).2).1 (by decide)⟩

/-- C3 counterexample: a negative size does not fail — both classifiers
return the good verdict at `sizeKB = -1` (the code has no negativity
check; a negative size passes the first `≤` test). -/
theorem c3_invalid_input_counterexample :
    evaluateFileSize "index.html" (-1) = goodStatus ∧
      evaluateAssetSize "photo.png" (-1) = goodStatus := by
  constructor <;> decide

/-- C3 amended: for every negative size both classifiers silently return
the good verdict (every threshold is positive), rather than failing. -/
theorem c3_negative_size_accepted (filename : String) (sizeKB : ℚ)
    (hneg : sizeKB < 0) :
    evaluateFileSize filename sizeKB = goodStatus ∧
      evaluateAssetSize filename sizeKB = goodStatus := by
  have hf := fileLimits_pos filename
  have ha := assetLimitOf_pos filename
  unfold evaluateFileSize evaluateAssetSize
  rw [if_pos (by linarith), if_pos (by linarith)]
  exact ⟨rfl, rfl⟩

/-- C3 witness for the amended claim. -/
theorem c3_negative_size_accepted_witness :
    evaluateFileSize "photo.gif" (-5) = goodStatus ∧
      evaluateAssetSize "photo.gif" (-5) = goodStatus :=
  c3_negative_size_accepted "photo.gif" (-5) (by decide)

/-- C2 counterexample: with two 5-byte assets the script rounds each
per-item size to 2 decimals first (`round2 (5/1024) = 0`), sums the
rounded values and rounds again, producing `totalSize = 0`; rounding
once at aggregation time over the exact sizes would give
`round2 (10/1024) = 0.01`. -/
theorem c2_per_item_rounding_counterexample :
    (analyzeAssets [("a.png", 5), ("b.png", 5)]).totalSize = 0 ∧
      round2 (5 / 1024 + 5 / 1024) = 1 / 100 ∧
      (analyzeAssets [("a.png", 5), ("b.png", 5)]).totalSize ≠
        round2 (5 / 1024 + 5 / 1024) := by
  refine ⟨?_, ?_, ?_⟩ <;> norm_num [analyzeAssets, round2_eq, round_eq]

/-- C2 amended: `totalSizeKB` is the 2-decimal rounding of the sum of the
per-item sizes that were themselves already rounded to 2 decimals at
conversion (`round2 (size/1024)` per asset), not of the exact sizes. -/
theorem c2_total_size_rounding (assets : List (String × ℚ)) :
    (analyzeAssets assets).totalSize =
      round2 ((assets.map fun p => round2 (p.2 / 1024)).sum) := by
  unfold analyzeAssets
  rw [List.sum_eq_foldl, List.foldl_map]

/-- C2 witness for the amended claim. -/
theorem c2_total_size_rounding_witness :
    (analyzeAssets [("a.png", 5)]).totalSize =
      round2 (([(("a.png" : String), (5 : ℚ))].map fun p => round2 (p.2 / 1024)).sum) :=
  c2_total_size_rounding [("a.png", 5)]

/-- The deduction loop equals the start value minus the summed
deductions. -/
theorem foldl_deduction (recs : List Recommendation) (init : ℤ) :
    recs.foldl (fun s r => s - recDeduction r.priority) init
      = init - (recs.map fun r => recDeduction r.priority).sum := by
  induction recs generalizing init with
  | nil => simp
  | cons r rs ih => simp [ih]; ring

/-- The summed deductions weigh each priority by its `switch` case. -/
theorem deduction_sum (recs : List Recommendation) :
    (recs.map fun r => recDeduction r.priority).sum
      = 15 * countPriority "high" recs + 10 * countPriority "medium" recs
          + 5 * countPriority "low" recs := by
  induction recs with
  | nil => simp [countPriority]
  | cons r rs ih =>
    have hhm : ("high" : String) ≠ "medium" := by decide
    have hhl : ("high" : String) ≠ "low" := by decide
    have hml : ("medium" : String) ≠ "low" := by decide
    simp only [List.map_cons, List.sum_cons, ih, countPriority, List.filter_cons]
    by_cases h1 : r.priority = "high"
    · simp [recDeduction, h1, hhm, hhl]
      ring
    · by_cases h2 : r.priority = "medium"
      · simp [recDeduction, h2, hhm.symm, hml]
        ring
      · by_cases h3 : r.priority = "low"
        · simp [recDeduction, h3, hhl.symm, hml.symm, h1, h2]
          ring
        · simp [recDeduction, h1, h2, h3]

/-- C4: the score is `max 0` of `100` minus `15` per high, `10` per
medium and `5` per low recommendation; the empty list scores `100`
(band excellent), `{high, high, medium}` scores `60` (band
caution), ten highs clamp to `0`, and the bands follow the
`≥90 / ≥70 / ≥50` cutoffs. -/
theorem c4_score_aggregator :
    (∀ recs : List Recommendation,
        computeScore recs = max 0 (100 - 15 * countPriority "high" recs
          - 10 * countPriority "medium" recs - 5 * countPriority "low" recs)) ∧
    (computeScore [] = 100 ∧ scoreBand (computeScore []) = Band.excellent) ∧
    (computeScore [⟨"CSS", "high", ""⟩, ⟨"CSS", "high", ""⟩, ⟨"CSS", "medium", ""⟩] = 60 ∧
      scoreBand 60 = Band.caution) ∧
    computeScore (List.replicate 10 ⟨"CSS", "high", ""⟩) = 0 ∧
    (∀ s : ℤ, (90 ≤ s → scoreBand s = Band.excellent) ∧
      (70 ≤ s → s < 90 → scoreBand s = Band.good) ∧
      (50 ≤ s → s < 70 → scoreBand s = Band.caution) ∧
      (s < 50 → scoreBand s = Band.needsWork)) := by
  refine ⟨fun recs => ?_, ⟨by decide, by decide⟩, ⟨by decide, by decide⟩, by decide,
    fun s => ⟨fun h => ?_, fun h1 h2 => ?_, fun h1 h2 => ?_, fun h => ?_⟩⟩
  · rw [computeScore, foldl_deduction, deduction_sum]
    ring_nf
  · rw [scoreBand, if_pos (by omega)]
  · rw [scoreBand, if_neg (by omega), if_pos (by omega)]
  · rw [scoreBand, if_neg (by omega), if_neg (by omega), if_pos (by omega)]
  · rw [scoreBand, if_neg (by omega), if_neg (by omega), if_neg (by omega)]

/-- C4 witness: band cutoffs at a concrete score. -/
theorem c4_score_aggregator_witness : scoreBand 75 = Band.good :=
  ((c4_score_aggregator.2.2.2.2 75).2.1) (by decide) (by decide)

/-- C5: on `<script>setTimeout(f,1);setTimeout(g,2);</script>` the
analyzer counts two `setTimeout` and zero `requestAnimationFrame`
occurrences, and a full rule-evaluation pass over these metrics (with
all-zero stylesheet metrics and an empty asset inventory) produces
exactly the one high-priority JavaScript recommendation of the
`animationFrameUsage == 0 && setTimeoutUsage > 0` rule. -/
theorem c5_settimeout_recommendation :
    (analyzeJSPerformance "<script>setTimeout(f,1);setTimeout(g,2);</script>").setTimeoutUsage = 2 ∧
    (analyzeJSPerformance "<script>setTimeout(f,1);setTimeout(g,2);</script>").animationFrameUsage = 0 ∧
    runRecommendations ⟨0, 0, 0, 0, 0, 0, 0, 0, 0, 0⟩
        (analyzeJSPerformance "<script>setTimeout(f,1);setTimeout(g,2);</script>") []
      = [⟨"JavaScript", "high",
          "アニメーションにはsetTimeoutではなくrequestAnimationFrameの使用を推奨"⟩] := by
  refine ⟨by decide, by decide, ?_⟩
  have hcss : evaluateCSSPerformance ⟨0, 0, 0, 0, 0, 0, 0, 0, 0, 0⟩ = [] := by decide
  have hjs : evaluateJSPerformance
      (analyzeJSPerformance "<script>setTimeout(f,1);setTimeout(g,2);</script>")
      = [⟨"JavaScript", "high",
          "アニメーションにはsetTimeoutではなくrequestAnimationFrameの使用を推奨"⟩] := by decide
  have hassets : evaluateAssetPerformance (analyzeAssets []) = [] := by
    norm_num [analyzeAssets, evaluateAssetPerformance, round2_eq, round_eq]
  rw [runRecommendations, hcss, hjs, hassets]
  simp

/-- C6: a markup text in which the extraction regex finds no script
block yields the all-zero metrics record, with `scriptTags = 0` — a
normal result, not an error. -/
theorem c6_no_script_blocks (markup : String)
    (h : extractScripts markup.data = []) :
    analyzeJSPerformance markup = ⟨0, 0, 0, 0, 0, 0, 0⟩ := by
  simp [analyzeJSPerformance, h]

/-- C6 witness: a script-free document. -/
theorem c6_no_script_blocks_witness :
    extractScripts "<p>hello</p>".data = [] ∧
      analyzeJSPerformance "<p>hello</p>" = ⟨0, 0, 0, 0, 0, 0, 0⟩ :=
  ⟨by decide, c6_no_script_blocks "<p>hello</p>" (by decide)⟩

/-- C7: on the sample stylesheet text the analyzer finds at least one
complex selector, exactly one media query and exactly two `!important`
occurrences. -/
theorem c7_stylesheet_sample_counts :
    1 ≤ (analyzeCSSPerformance
        ".a .b .c .d \x7b color:red; \x7d @media (max-width:1px)\x7b \x7d !important !important").complexSelectors ∧
    (analyzeCSSPerformance
        ".a .b .c .d \x7b color:red; \x7d @media (max-width:1px)\x7b \x7d !important !important").mediaQueries = 1 ∧
    (analyzeCSSPerformance
        ".a .b .c .d \x7b color:red; \x7d @media (max-width:1px)\x7b \x7d !important !important").importantUsage = 2 := by
  refine ⟨by decide, by decide, by decide⟩

/-- One priority group of the report listing. -/
def priorityGroup (recs : List Recommendation) (p : String) :
    List (String × Nat × Recommendation) :=
  ((recs.filter fun r => r.priority = p).enum).map fun e => (p, e.1 + 1, e.2)

/-- The listing is the three groups in the fixed priority order. -/
theorem groupedRecommendations_eq (recs : List Recommendation) :
    groupedRecommendations recs = priorityGroup recs "high"
      ++ priorityGroup recs "medium" ++ priorityGroup recs "low" := by
  simp [groupedRecommendations, priorityGroup]

theorem map_snd_enumFrom {α : Type} (l : List α) (n : Nat) :
    ((List.enumFrom n l).map fun e => e.2) = l := by
  induction l generalizing n with
  | nil => rfl
  | cons x xs ih => simp [List.enumFrom, ih]

theorem map_fst_succ_enumFrom {α : Type} (l : List α) (n : Nat) :
    ((List.enumFrom n l).map fun e => e.1 + 1) = List.range' (n + 1) l.length := by
  induction l generalizing n with
  | nil => rfl
  | cons x xs ih => simp [List.enumFrom, List.range'_succ, ih]

/-- The recommendations of one group, in order. -/
theorem priorityGroup_map_rec (recs : List Recommendation) (p : String) :
    (priorityGroup recs p).map (fun e => e.2.2) = recs.filter fun r => r.priority = p := by
  rw [priorityGroup, List.map_map, List.enum]
  exact map_snd_enumFrom _ 0

/-- The indices of one group: `1, 2, …, size of the group`. -/
theorem priorityGroup_map_idx (recs : List Recommendation) (p : String) :
    (priorityGroup recs p).map (fun e => e.2.1)
      = List.range' 1 (recs.filter fun r => r.priority = p).length := by
  rw [priorityGroup, List.map_map, List.enum]
  have := map_fst_succ_enumFrom (recs.filter fun r => r.priority = p) 0
  simpa using this

/-- Filtering one group by a priority keeps all of it or none of it. -/
theorem priorityGroup_filter (recs : List Recommendation) (p q : String) :
    (priorityGroup recs q).filter (fun e => e.1 = p)
      = if q = p then priorityGroup recs q else [] := by
  by_cases h : q = p
  · subst h
    rw [priorityGroup, List.filter_map, if_pos rfl]
    have hc : ((fun e => decide (e.1 = q)) ∘ fun e : Nat × Recommendation => (q, e.1 + 1, e.2))
        = fun _ => true := by
      funext e
      simp
    rw [hc, List.filter_true]
  · rw [priorityGroup, List.filter_map, if_neg h]
    have hc : ((fun e => decide (e.1 = p)) ∘ fun e : Nat × Recommendation => (q, e.1 + 1, e.2))
        = fun _ => false := by
      funext e
      simp [h]
    rw [hc, List.filter_false, List.map_nil]

/-- C8: the rendered listing shows every high-priority recommendation
first, then the medium ones, then the low ones, each group in original
insertion order (filtering preserves order), and the indices shown
within each priority group are `1, 2, …`, restarting per group. -/
theorem c8_priority_grouping (recs : List Recommendation) (p : String)
    (hp : p ∈ (["high", "medium", "low"] : List String)) :
    (groupedRecommendations recs).map (fun e => e.2.2)
      = recs.filter (fun r => r.priority = "high")
        ++ recs.filter (fun r => r.priority = "medium")
        ++ recs.filter (fun r => r.priority = "low") ∧
    ((groupedRecommendations recs).filter fun e => e.1 = p).map (fun e => e.2.1)
      = List.range' 1 (recs.filter fun r => r.priority = p).length := by
  constructor
  · rw [groupedRecommendations_eq]
    simp only [List.map_append]
    rw [priorityGroup_map_rec, priorityGroup_map_rec, priorityGroup_map_rec]
  · have key : ∀ q : String, q ∈ (["high", "medium", "low"] : List String) →
        ((groupedRecommendations recs).filter fun e => e.1 = q)
          = priorityGroup recs q := by
      intro q hq
      rw [groupedRecommendations_eq]
      simp only [List.filter_append, priorityGroup_filter]
      fin_cases hq <;> simp
    rw [key p hp, priorityGroup_map_idx]

/-- A concrete recommendation list for witnesses. -/
def demoRecs : List Recommendation :=
  [⟨"CSS", "low", "a"⟩, ⟨"JavaScript", "high", "b"⟩]

/-- C8 witness at a concrete two-element list. -/
theorem c8_priority_grouping_witness :
    (groupedRecommendations demoRecs).map (fun e => e.2.2)
      = demoRecs.filter (fun r => r.priority = "high")
        ++ demoRecs.filter (fun r => r.priority = "medium")
        ++ demoRecs.filter (fun r => r.priority = "low") ∧
    ((groupedRecommendations demoRecs).filter fun e => e.1 = "high").map (fun e => e.2.1)
      = List.range' 1 (demoRecs.filter fun r => r.priority = "high").length :=
  c8_priority_grouping demoRecs "high" (by decide)

/-- The inventory size is the listing length. -/
theorem analyzeAssets_totalAssets (assets : List (String × ℚ)) :
    (analyzeAssets assets).totalAssets = assets.length := rfl

/-- A scan of a mapped list is the scan of the composite predicate. -/
theorem any_map_eq {α β : Type} (l : List α) (f : α → β) (q : β → Bool) :
    (l.map f).any q = l.any fun a => q (f a) := by
  induction l with
  | nil => rfl
  | cons a as ih => simp [ih]

/-- The detail entries, keyed by asset name in listing order. -/
theorem analyzeAssets_details (assets : List (String × ℚ)) :
    (analyzeAssets assets).details = assets.map fun p =>
      (p.1, AssetDetail.mk (round2 (p.2 / 1024)) (toLowerStr (extname p.1))
        (evaluateAssetSize p.1 (round2 (p.2 / 1024)))) := rfl

/-- The WebP scan over the detail keys is the same scan over the
listing names. -/
theorem analyzeAssets_details_any (assets : List (String × ℚ)) :
    ((analyzeAssets assets).details.any fun p => toLowerStr (extname p.1) = ".webp")
      = assets.any fun p => toLowerStr (extname p.1) = ".webp" := by
  rw [analyzeAssets_details, any_map_eq]

/-- C9: the Asset/low WebP-adoption recommendation is emitted exactly
when the inventory is non-empty and no asset name has the (lower-cased)
extension `.webp`. -/
theorem c9_webp_recommendation (assets : List (String × ℚ)) :
    webpRec ∈ evaluateAssetPerformance (analyzeAssets assets) ↔
      0 < assets.length ∧ ∀ p ∈ assets, toLowerStr (extname p.1) ≠ ".webp" := by
  have hp1 : webpRec ∉ (if (analyzeAssets assets).totalSize > 5000
      then [(⟨"Assets", "high", "アセットの総サイズが大きいです。画像の最適化を推奨"⟩ : Recommendation)]
      else []) := by
    split
    · simp [webpRec]
    · simp
  have hp2 : webpRec ∉ (analyzeAssets assets).details.filterMap (fun p =>
      if p.2.status = badStatus then
        some ⟨"Assets", "medium", p.1 ++ " のサイズが大きいです (" ++ toString p.2.size ++ "KB)"⟩
      else none) := by
    rw [List.mem_filterMap]
    rintro ⟨a, _, heq⟩
    by_cases hs : a.2.status = badStatus
    · rw [if_pos hs] at heq
      have hpri := congrArg Recommendation.priority (Option.some.inj heq)
      simp [webpRec] at hpri
    · rw [if_neg hs] at heq
      exact Option.noConfusion heq
  by_cases hc : (¬ (analyzeAssets assets).details.any fun p => toLowerStr (extname p.1) = ".webp")
      ∧ (analyzeAssets assets).totalAssets > 0
  · constructor
    · intro _
      obtain ⟨hna, hlen⟩ := hc
      refine ⟨by simpa [analyzeAssets_totalAssets] using hlen, fun p hp hweb => ?_⟩
      apply hna
      rw [analyzeAssets_details_any]
      exact List.any_eq_true.mpr ⟨p, hp, by simp [hweb]⟩
    · intro _
      unfold evaluateAssetPerformance
      rw [List.mem_append]
      right
      rw [if_pos hc]
      exact List.mem_singleton.mpr rfl
  · constructor
    · intro hmem
      exfalso
      unfold evaluateAssetPerformance at hmem
      rcases List.mem_append.mp hmem with h12 | h3
      · rcases List.mem_append.mp h12 with h1 | h2
        · exact hp1 h1
        · exact hp2 h2
      · rw [if_neg hc] at h3
        exact absurd h3 (List.not_mem_nil _)
    · rintro ⟨hlen, hall⟩
      exfalso
      apply hc
      constructor
      · intro hany
        rw [analyzeAssets_details_any] at hany
        obtain ⟨p, hp, hweb⟩ := List.any_eq_true.mp hany
        exact hall p hp (by simpa using hweb)
      · rw [analyzeAssets_totalAssets]
        exact hlen

/-- C9 witness: one non-WebP asset makes the rule fire. -/
theorem c9_webp_recommendation_witness :
    webpRec ∈ evaluateAssetPerformance (analyzeAssets [("a.png", 5)]) :=
  (c9_webp_recommendation [("a.png", 5)]).mpr ⟨by decide, by decide⟩

/-- Any list whose members carry one of the three priorities splits its
length across the three priority filters. -/
theorem length_eq_three_filters (recs : List Recommendation)
    (h : ∀ r ∈ recs, r.priority = "high" ∨ r.priority = "medium" ∨ r.priority = "low") :
    recs.length = (recs.filter fun r => r.priority = "high").length
      + (recs.filter fun r => r.priority = "medium").length
      + (recs.filter fun r => r.priority = "low").length := by
  induction recs with
  | nil => simp
  | cons r rs ih =>
    have hr := h r (List.mem_cons_self r rs)
    have hrs := ih fun x hx => h x (List.mem_cons_of_mem r hx)
    have hhm : ("high" : String) ≠ "medium" := by decide
    have hhl : ("high" : String) ≠ "low" := by decide
    have hml : ("medium" : String) ≠ "low" := by decide
    rcases hr with h1 | h1 | h1 <;>
      simp [List.filter_cons, h1, hhm, hhl, hml, hhm.symm, hhl.symm, hml.symm, hrs] <;>
      omega

/-- Membership in a guarded singleton list forces the element. -/
theorem mem_ite_singleton {c : Prop} [Decidable c] {r x : Recommendation}
    (h : r ∈ (if c then [x] else [])) : r = x := by
  split at h
  · exact List.mem_singleton.mp h
  · exact absurd h (List.not_mem_nil r)

/-- Every stylesheet-rule recommendation is high, medium or low. -/
theorem evaluateCSSPerformance_priorities (a : CSSAnalysis) :
    ∀ r ∈ evaluateCSSPerformance a,
      r.priority = "high" ∨ r.priority = "medium" ∨ r.priority = "low" := by
  intro r hr
  unfold evaluateCSSPerformance at hr
  simp only [List.mem_append] at hr
  rcases hr with ((h1 | h2) | h3) | h4
  · obtain rfl := mem_ite_singleton h1
    decide
  · obtain rfl := mem_ite_singleton h2
    decide
  · obtain rfl := mem_ite_singleton h3
    decide
  · obtain rfl := mem_ite_singleton h4
    decide

/-- Every script-rule recommendation is high, medium or low. -/
theorem evaluateJSPerformance_priorities (a : JSAnalysis) :
    ∀ r ∈ evaluateJSPerformance a,
      r.priority = "high" ∨ r.priority = "medium" ∨ r.priority = "low" := by
  intro r hr
  unfold evaluateJSPerformance at hr
  simp only [List.mem_append] at hr
  rcases hr with ((h1 | h2) | h3) | h4
  · obtain rfl := mem_ite_singleton h1
    decide
  · obtain rfl := mem_ite_singleton h2
    decide
  · obtain rfl := mem_ite_singleton h3
    decide
  · obtain rfl := mem_ite_singleton h4
    decide

/-- Every asset-rule recommendation is high, medium or low. -/
theorem evaluateAssetPerformance_priorities (a : AssetAnalysis) :
    ∀ r ∈ evaluateAssetPerformance a,
      r.priority = "high" ∨ r.priority = "medium" ∨ r.priority = "low" := by
  intro r hr
  unfold evaluateAssetPerformance at hr
  simp only [List.mem_append] at hr
  rcases hr with (h1 | h2) | h3
  · obtain rfl := mem_ite_singleton h1
    decide
  · obtain ⟨p, _, heq⟩ := List.mem_filterMap.mp h2
    by_cases hs : p.2.status = badStatus
    · rw [if_pos hs] at heq
      obtain rfl := Option.some.inj heq
      right
      left
      rfl
    · rw [if_neg hs] at heq
      exact Option.noConfusion heq
  · obtain rfl := mem_ite_singleton h3
    decide

/-- C10: every recommendation any evaluator produces has one of the
three priorities, so the summary's total equals the sum of its three
per-priority counts, whatever the analyzer inputs were. -/
theorem c10_summary_counts (totalFiles : Nat) (css : CSSAnalysis) (js : JSAnalysis)
    (assets : List (String × ℚ)) :
    (mkSummary totalFiles (runRecommendations css js assets)).totalRecommendations
      = (mkSummary totalFiles (runRecommendations css js assets)).highPriorityIssues
        + (mkSummary totalFiles (runRecommendations css js assets)).mediumPriorityIssues
        + (mkSummary totalFiles (runRecommendations css js assets)).lowPriorityIssues := by
  apply length_eq_three_filters
  intro r hr
  rcases List.mem_append.mp hr with h12 | h3
  · rcases List.mem_append.mp h12 with h1 | h2
    · exact evaluateCSSPerformance_priorities css r h1
    · exact evaluateJSPerformance_priorities js r h2
  · exact evaluateAssetPerformance_priorities (analyzeAssets assets) r h3

/-- C10 witness at concrete all-zero metrics and a one-asset listing. -/
theorem c10_summary_counts_witness :
    (mkSummary 4 (runRecommendations ⟨0, 0, 0, 0, 0, 0, 0, 0, 0, 0⟩ ⟨0, 0, 0, 0, 0, 0, 0⟩
        [("a.png", 5)])).totalRecommendations
      = (mkSummary 4 (runRecommendations ⟨0, 0, 0, 0, 0, 0, 0, 0, 0, 0⟩ ⟨0, 0, 0, 0, 0, 0, 0⟩
          [("a.png", 5)])).highPriorityIssues
        + (mkSummary 4 (runRecommendations ⟨0, 0, 0, 0, 0, 0, 0, 0, 0, 0⟩ ⟨0, 0, 0, 0, 0, 0, 0⟩
            [("a.png", 5)])).mediumPriorityIssues
        + (mkSummary 4 (runRecommendations ⟨0, 0, 0, 0, 0, 0, 0, 0, 0, 0⟩ ⟨0, 0, 0, 0, 0, 0, 0⟩
            [("a.png", 5)])).lowPriorityIssues :=
  c10_summary_counts 4 ⟨0, 0, 0, 0, 0, 0, 0, 0, 0, 0⟩ ⟨0, 0, 0, 0, 0, 0, 0⟩ [("a.png", 5)]
